import Mathlib

/-!
# movieRating.js — HTTP client for the movie-rating batch service

A shallow embedding of `src/movieRating.js`: the pre-configured axios instance
`api`, its request/response interceptors, and the four operations of
`movieRatingApi`.

Modelling conventions.

* JavaScript values are the inductive `JsVal` (JSON values plus `undefined`).
  Numbers are restricted to integers (`Int`); floating point values are outside
  the model.
* A settled promise is `Settled α`: either `fulfilled v` or `rejected e`, where
  `e` is a JavaScript `Error` object (`JsError`).
* The axios library is an external dependency.  Its adapter (the transport that
  actually performs the HTTP exchange) is a parameter
  `Adapter σ = config → σ → result × σ` over an arbitrary transport state `σ`.
  The dispatch chain of axios (request interceptor, then adapter, then response
  interceptor) is `api.request`.  The error handler of the request interceptor
  (lines 18–21) is only reached when an earlier request interceptor rejects;
  the instance registers none, so the chain never enters it.
* HTTP status codes are natural numbers; the template literal renders them in
  decimal.
* The world threaded through a call (`World σ`) holds the transport state, the
  list of configs handed to the adapter (`sent`) and the console output.
-/

set_option autoImplicit false

namespace MovieRating

/-! ## JavaScript values -/

mutual
/-- JavaScript values that can occur in a response body or an error field. -/
inductive JsVal where
  | undefined
  | null
  | bool (b : Bool)
  | num (n : Int)
  | str (s : String)
  | arr (items : JsList)
  | obj (props : JsProps)
/-- Elements of a JavaScript array. -/
inductive JsList where
  | nil
  | cons (head : JsVal) (tail : JsList)
/-- Own properties of a plain JavaScript object, in insertion order. -/
inductive JsProps where
  | nil
  | cons (key : String) (value : JsVal) (tail : JsProps)
end

/-- Property lookup `o[key]` on the own properties of a plain object; a missing
key reads as `undefined`. -/
def JsProps.get : JsProps → String → JsVal
  | .nil, _ => .undefined
  | .cons k v tail, key => if k = key then v else tail.get key

/-- ECMAScript `ToBoolean`: `undefined`, `null`, `false`, `0` and `""` are falsy,
everything else (objects and arrays included) is truthy. -/
def JsVal.truthy : JsVal → Bool
  | .undefined => false
  | .null => false
  | .bool b => b
  | .num n => n != 0
  | .str s => s != ""
  | .arr _ => true
  | .obj _ => true

/-- The expression `a || b`. -/
def JsVal.or (a b : JsVal) : JsVal :=
  if a.truthy then a else b

/-- The expression `data?.message`: `undefined` when `data` is nullish, otherwise
the property read `data.message` (primitives and arrays have no such
property). -/
def JsVal.optMessage : JsVal → JsVal
  | .obj props => props.get "message"
  | _ => .undefined

mutual
/-- ECMAScript `ToString` on the modelled values (plain objects render through
`Object.prototype.toString`, arrays through `Array.prototype.join`). -/
def JsVal.toStr : JsVal → String
  | .undefined => "undefined"
  | .null => "null"
  | .bool b => if b then "true" else "false"
  | .num n => toString n
  | .str s => s
  | .arr items => items.join
  | .obj _ => "[object Object]"
/-- The comma-separated rendering of array elements. -/
def JsList.join : JsList → String
  | .nil => ""
  | .cons h .nil => h.elemStr
  | .cons h t => h.elemStr ++ "," ++ t.join
/-- Rendering of one array element inside `join`: nullish elements are empty. -/
def JsVal.elemStr : JsVal → String
  | .undefined => ""
  | .null => ""
  | .bool b => if b then "true" else "false"
  | .num n => toString n
  | .str s => s
  | .arr items => items.join
  | .obj _ => "[object Object]"
end

/-- A JavaScript `Error` object, reduced to its `message`. -/
structure JsError where
  message : String

/-- The expression `new Error(message)`: the message is `ToString(message)`,
and stays the empty default when the argument is `undefined`. -/
def newError : JsVal → JsError
  | .undefined => { message := "" }
  | v => { message := v.toStr }

/-- A settled promise. -/
inductive Settled (α : Type) where
  | fulfilled (value : α)
  | rejected (reason : JsError)

/-- `String.prototype.toUpperCase` on the method names used here. -/
def toUpperCase (s : String) : String :=
  String.mk (s.data.map Char.toUpper)

/-! ## Axios data -/

/-- The request config handed through the axios chain. -/
structure AxiosRequestConfig where
  baseURL : String
  timeout : Nat
  headers : List (String × String)
  method : String
  url : String
  data : JsVal

/-- An HTTP response as delivered by the adapter. -/
structure AxiosResponse where
  status : Nat
  data : JsVal

/-- The native request object attached to a transport error (only its presence
is inspected). -/
structure ClientRequest where
  url : String

/-- The error a failed transport exchange rejects with. -/
structure AxiosError where
  message : JsVal
  request : Option ClientRequest
  response : Option AxiosResponse

/-- One argument of a console call. -/
inductive ConsoleArg where
  | text (s : String)
  | status (n : Nat)
  | value (v : JsVal)
  | transportError (e : AxiosError)
  | error (e : JsError)

/-- The console method used. -/
inductive ConsoleLevel where
  | log
  | error

/-- One console call. -/
structure ConsoleLine where
  level : ConsoleLevel
  args : List ConsoleArg

/-- The transport: one HTTP exchange, possibly changing the transport state. -/
abbrev Adapter (σ : Type) := AxiosRequestConfig → σ → Except AxiosError AxiosResponse × σ

/-- Everything a call can observe or change. -/
structure World (σ : Type) where
  transport : σ
  sent : List AxiosRequestConfig
  console : List ConsoleLine

/-- The call `console.log(...args)`. -/
def World.log {σ : Type} (w : World σ) (args : List ConsoleArg) : World σ :=
  { w with console := w.console ++ [{ level := .log, args := args }] }

/-- The call `console.error(...args)`. -/
def World.error {σ : Type} (w : World σ) (args : List ConsoleArg) : World σ :=
  { w with console := w.console ++ [{ level := .error, args := args }] }

/-! ## The axios instance `api` (lines 4–47) -/

namespace api

/-- The defaults of `axios.create` (lines 4–10) merged with a per-call method,
url and body. -/
def defaults (method url : String) (data : JsVal) : AxiosRequestConfig :=
  { baseURL := "/api/movie-rating"
    timeout := 30000
    headers := [("Content-Type", "application/json")]
    method := method
    url := url
    data := data }

/-- Request interceptor, success handler (lines 14–17). -/
def requestFulfilled {σ : Type} (config : AxiosRequestConfig) (w : World σ) :
    AxiosRequestConfig × World σ :=
  (config, w.log [.text "发送请求:", .text (toUpperCase config.method), .text config.url])

/-- Response interceptor, success handler (lines 26–29). -/
def responseFulfilled {σ : Type} (response : AxiosResponse) (w : World σ) :
    Settled JsVal × World σ :=
  (.fulfilled response.data,
    w.log [.text "收到响应:", .status response.status, .value response.data])

/-- Response interceptor, error handler (lines 30–46). -/
def responseRejected {σ : Type} (error : AxiosError) (w : World σ) :
    Settled JsVal × World σ :=
  let w1 := w.error [.text "响应错误:", .transportError error]
  match error.response with
  | some response =>
    let status := response.status
    let data := response.data
    let message := data.optMessage.or (.str ("服务器错误 (" ++ toString status ++ ")"))
    (.rejected (newError message), w1)
  | none =>
    match error.request with
    | some _ => (.rejected (newError (.str "网络连接失败，请检查网络设置")), w1)
    | none => (.rejected (newError (error.message.or (.str "未知错误"))), w1)

/-- The axios dispatch chain for one call: request interceptor, one adapter
exchange (recorded in `sent`), response interceptor. -/
def request {σ : Type} (adapter : Adapter σ) (config : AxiosRequestConfig) (w : World σ) :
    Settled JsVal × World σ :=
  let (config1, w1) := requestFulfilled config w
  let (result, s) := adapter config1 w1.transport
  let w2 := { w1 with transport := s, sent := w1.sent ++ [config1] }
  match result with
  | .ok response => responseFulfilled response w2
  | .error error => responseRejected error w2

/-- The call `api.post(url)`: no body is passed. -/
def post {σ : Type} (adapter : Adapter σ) (url : String) (w : World σ) :
    Settled JsVal × World σ :=
  request adapter (defaults "post" url .undefined) w

/-- The call `api.get(url)`. -/
def get {σ : Type} (adapter : Adapter σ) (url : String) (w : World σ) :
    Settled JsVal × World σ :=
  request adapter (defaults "get" url .undefined) w

end api

/-! ## The exported operations `movieRatingApi` (lines 50–107) -/

namespace movieRatingApi

/-- Operation `startProcessing` (lines 55–63). -/
def startProcessing {σ : Type} (adapter : Adapter σ) (w : World σ) :
    Settled JsVal × World σ :=
  match api.post adapter "/process" w with
  | (.fulfilled response, w1) => (.fulfilled response, w1)
  | (.rejected error, w1) =>
    (.rejected error, w1.error [.text "启动批处理失败:", .error error])

/-- Operation `getJobProgress` (lines 70–78). -/
def getJobProgress {σ : Type} (adapter : Adapter σ) (jobId : String) (w : World σ) :
    Settled JsVal × World σ :=
  match api.get adapter ("/progress/" ++ jobId) w with
  | (.fulfilled response, w1) => (.fulfilled response, w1)
  | (.rejected error, w1) =>
    (.rejected error, w1.error [.text ("获取作业 " ++ jobId ++ " 进度失败:"), .error error])

/-- Operation `getAllProgress` (lines 84–92). -/
def getAllProgress {σ : Type} (adapter : Adapter σ) (w : World σ) :
    Settled JsVal × World σ :=
  match api.get adapter "/progress" w with
  | (.fulfilled response, w1) => (.fulfilled response, w1)
  | (.rejected error, w1) =>
    (.rejected error, w1.error [.text "获取所有作业进度失败:", .error error])

/-- Operation `getSystemStatus` (lines 98–106). -/
def getSystemStatus {σ : Type} (adapter : Adapter σ) (w : World σ) :
    Settled JsVal × World σ :=
  match api.get adapter "/status" w with
  | (.fulfilled response, w1) => (.fulfilled response, w1)
  | (.rejected error, w1) =>
    (.rejected error, w1.error [.text "获取系统状态失败:", .error error])

end movieRatingApi

/-! ## Vocabulary for the statements -/

/-- The four operations of `movieRatingApi`, as data. -/
inductive Operation where
  | startProcessing
  | getJobProgress (jobId : String)
  | getAllProgress
  | getSystemStatus

/-- Running an operation. -/
def Operation.run {σ : Type} (op : Operation) (adapter : Adapter σ) (w : World σ) :
    Settled JsVal × World σ :=
  match op with
  | .startProcessing => movieRatingApi.startProcessing adapter w
  | .getJobProgress jobId => movieRatingApi.getJobProgress adapter jobId w
  | .getAllProgress => movieRatingApi.getAllProgress adapter w
  | .getSystemStatus => movieRatingApi.getSystemStatus adapter w

/-- The config an operation passes to the axios chain. -/
def Operation.config : Operation → AxiosRequestConfig
  | .startProcessing => api.defaults "post" "/process" .undefined
  | .getJobProgress jobId => api.defaults "get" ("/progress/" ++ jobId) .undefined
  | .getAllProgress => api.defaults "get" "/progress" .undefined
  | .getSystemStatus => api.defaults "get" "/status" .undefined

/-- The state of the mock transport: the results still to be delivered. -/
abbrev Script := List (Except AxiosError AxiosResponse)

/-- A mock transport driven by a script of results: each exchange consumes the
next scripted result; an exhausted script answers like an unreachable host. -/
def scripted : Adapter Script
  | _, [] => (.error { message := .str "Network Error", request := some { url := "" },
                       response := none }, [])
  | _, r :: rest => (r, rest)

/-- A world with nothing sent and nothing logged. -/
def World.init {σ : Type} (s : σ) : World σ :=
  { transport := s, sent := [], console := [] }

/-- The fresh world of the mock transport with the given script. -/
def mockWorld (script : Script) : World Script :=
  World.init script

/-! ## Concrete transport results used in the examples -/

/-- A 500 answer whose body has the single field `message` set to "db down". -/
def error500 : AxiosError :=
  { message := .str "Request failed with status code 500"
    request := some { url := "/api/movie-rating/status" }
    response := some { status := 500, data := .obj (.cons "message" (.str "db down") .nil) } }

/-- A 404 answer whose body has an `error` field and no `message` field. -/
def error404 : AxiosError :=
  { message := .str "Request failed with status code 404"
    request := some { url := "/api/movie-rating/progress/abc123" }
    response := some { status := 404, data := .obj (.cons "error" (.str "Not Found") .nil) } }

/-- A 502 answer without any body. -/
def error502 : AxiosError :=
  { message := .str "Request failed with status code 502"
    request := some { url := "/api/movie-rating/progress" }
    response := some { status := 502, data := .null } }

/-- A 500 answer whose body carries an empty `message`. -/
def error500Empty : AxiosError :=
  { message := .str "Request failed with status code 500"
    request := some { url := "/api/movie-rating/process" }
    response := some { status := 500, data := .obj (.cons "message" (.str "") .nil) } }

/-- A 503 answer whose body carries the message `busy` after another field. -/
def error503 : AxiosError :=
  { message := .str "Request failed with status code 503"
    request := none
    response := some { status := 503,
                       data := .obj (.cons "code" (.num 7) (.cons "message" (.str "busy") .nil)) } }

/-- A timeout: a request was made, no response arrived. -/
def errorTimeout : AxiosError :=
  { message := .str "timeout of 30000ms exceeded"
    request := some { url := "/api/movie-rating/status" }
    response := none }

/-- A failure while setting up the request. -/
def errorSetup : AxiosError :=
  { message := .str "Invalid URL", request := none, response := none }

/-- A failure while setting up the request that carries no message. -/
def errorSetupSilent : AxiosError :=
  { message := .undefined, request := none, response := none }

/-- A 200 answer whose body has the single field `uptime` set to 42. -/
def statusOk : AxiosResponse :=
  { status := 200, data := .obj (.cons "uptime" (.num 42) .nil) }

/-! ## Shared lemmas -/

section Lemmas

variable {σ : Type}

theorem request_eq (adapter : Adapter σ) (cfg : AxiosRequestConfig) (w : World σ) :
    api.request adapter cfg w =
      match (adapter cfg w.transport).1 with
      | .ok response =>
        api.responseFulfilled response
          { (api.requestFulfilled cfg w).2 with
            transport := (adapter cfg w.transport).2, sent := w.sent ++ [cfg] }
      | .error error =>
        api.responseRejected error
          { (api.requestFulfilled cfg w).2 with
            transport := (adapter cfg w.transport).2, sent := w.sent ++ [cfg] } := by
  unfold api.request
  simp only [api.requestFulfilled, World.log]

theorem responseRejected_fst (e : AxiosError) (w w0 : World σ) :
    (api.responseRejected e w).1 = (api.responseRejected e w0).1 := by
  unfold api.responseRejected
  rcases e with ⟨m, q, r⟩
  cases r <;> cases q <;> rfl

theorem responseRejected_rejected (e : AxiosError) (w : World σ) :
    (api.responseRejected e w).1 = .rejected (match (api.responseRejected e w).1 with
      | .rejected err => err
      | .fulfilled _ => { message := "" }) := by
  unfold api.responseRejected
  rcases e with ⟨m, q, r⟩
  cases r <;> cases q <;> rfl

theorem responseRejected_sent (e : AxiosError) (w : World σ) :
    (api.responseRejected e w).2.sent = w.sent ∧
      (api.responseRejected e w).2.transport = w.transport := by
  unfold api.responseRejected
  rcases e with ⟨m, q, r⟩
  cases r <;> cases q <;> exact ⟨rfl, rfl⟩

theorem run_eq_fst (op : Operation) (adapter : Adapter σ) (w : World σ) :
    (op.run adapter w).1 = (api.request adapter op.config w).1 := by
  cases op <;>
    simp only [Operation.run, Operation.config, movieRatingApi.startProcessing,
      movieRatingApi.getJobProgress, movieRatingApi.getAllProgress,
      movieRatingApi.getSystemStatus, api.post, api.get] <;>
    split <;> simp_all

theorem run_eq_sent (op : Operation) (adapter : Adapter σ) (w : World σ) :
    (op.run adapter w).2.sent = (api.request adapter op.config w).2.sent ∧
      (op.run adapter w).2.transport = (api.request adapter op.config w).2.transport := by
  cases op <;>
    simp only [Operation.run, Operation.config, movieRatingApi.startProcessing,
      movieRatingApi.getJobProgress, movieRatingApi.getAllProgress,
      movieRatingApi.getSystemStatus, api.post, api.get] <;>
    split <;> simp_all [World.error]

theorem request_sent (adapter : Adapter σ) (cfg : AxiosRequestConfig) (w : World σ) :
    (api.request adapter cfg w).2.sent = w.sent ++ [cfg] ∧
      (api.request adapter cfg w).2.transport = (adapter cfg w.transport).2 := by
  rw [request_eq]
  split
  · exact ⟨rfl, rfl⟩
  · exact responseRejected_sent _ _

theorem run_ok (op : Operation) (adapter : Adapter σ) (w : World σ) (r : AxiosResponse)
    (h : (adapter op.config w.transport).1 = .ok r) :
    (op.run adapter w).1 = .fulfilled r.data := by
  rw [run_eq_fst, request_eq, h]
  rfl

theorem run_error (op : Operation) (adapter : Adapter σ) (w w0 : World σ) (e : AxiosError)
    (h : (adapter op.config w.transport).1 = .error e) :
    (op.run adapter w).1 = (api.responseRejected e w0).1 := by
  rw [run_eq_fst, request_eq, h]
  exact responseRejected_fst _ _ _

end Lemmas

/-! ## Server-responded failures -/

section Claims

variable {σ : Type}

/-- C1: when the transport error carries a response whose body has a `message`
field holding a non-empty string `m` (any status, request present or not), the
response error handler rejects with an error whose message is exactly `m`, and
every operation whose transport exchange fails with that error rejects with the
same message. -/
theorem server_message_rejects (adapter : Adapter σ) (w : World σ) (e : AxiosError)
    (r : AxiosResponse) (props : JsProps) (m : String)
    (hresp : e.response = some r) (hdata : r.data = .obj props)
    (hmsg : props.get "message" = .str m) (hne : m ≠ "") :
    (api.responseRejected e w).1 = .rejected { message := m } ∧
      ∀ (op : Operation) (w1 : World σ),
        (adapter op.config w1.transport).1 = .error e →
          (op.run adapter w1).1 = .rejected { message := m } := by
  have key : ∀ w0 : World σ, (api.responseRejected e w0).1 = .rejected { message := m } := by
    intro w0
    simp [api.responseRejected, hresp, hdata, JsVal.optMessage, hmsg, JsVal.or,
      JsVal.truthy, hne, newError, JsVal.toStr]
  refine ⟨key w, ?_⟩
  intro op w1 h
  rw [run_error op adapter w1 w e h]
  exact key w

/-- Witness for C1: status 500 with body message "db down", on every operation
(any job id) against a transport scripted to fail with that answer. -/
theorem server_message_rejects_witness :
    error500.response = some { status := 500,
                               data := .obj (.cons "message" (.str "db down") .nil) } ∧
      (api.responseRejected error500 (mockWorld [.error error500])).1
        = .rejected { message := "db down" } ∧
      ∀ op : Operation,
        (op.run scripted (mockWorld [.error error500])).1
          = .rejected { message := "db down" } :=
  have h := server_message_rejects scripted (mockWorld [.error error500]) error500
    { status := 500, data := .obj (.cons "message" (.str "db down") .nil) }
    (.cons "message" (.str "db down") .nil) "db down" rfl rfl rfl (by decide)
  ⟨rfl, h.1, fun op => h.2 op (mockWorld [.error error500]) rfl⟩

/-- C2 (as amended): when the transport error carries a response with status `s`
whose body yields no `message` (the field is missing, or the body itself is
`undefined` or `null`), the response error handler rejects with the message
"服务器错误 (" followed by the decimal rendering of `s` followed by ")". -/
theorem server_status_message (w : World σ) (e : AxiosError) (r : AxiosResponse)
    (hresp : e.response = some r) (hmsg : r.data.optMessage = .undefined) :
    (api.responseRejected e w).1
        = .rejected { message := "服务器错误 (" ++ toString r.status ++ ")" } ∧
      JsVal.undefined.optMessage = .undefined ∧ JsVal.null.optMessage = .undefined := by
  refine ⟨?_, rfl, rfl⟩
  simp [api.responseRejected, hresp, hmsg, JsVal.or, JsVal.truthy, newError, JsVal.toStr]

/-- Witness for C2 (as amended): status 502 with a `null` body. -/
theorem server_status_message_witness :
    error502.response = some { status := 502, data := .null } ∧
      (api.responseRejected error502 (mockWorld [])).1
        = .rejected { message := "服务器错误 (502)" } :=
  ⟨rfl, (server_status_message (mockWorld []) error502 { status := 502, data := .null }
    rfl rfl).1⟩

/-- C2 fails as stated: for status 404 and a body without a `message` field the
handler rejects with "服务器错误 (404)", which is not "Server error (404)". -/
theorem not_found_message_is_localized :
    (api.responseRejected error404 (mockWorld [])).1
        = .rejected { message := "服务器错误 (404)" } ∧
      (api.responseRejected error404 (mockWorld [])).1
        ≠ .rejected { message := "Server error (" ++ toString (404 : Nat) ++ ")" } := by
  constructor
  · rfl
  · intro h
    have h2 : (api.responseRejected error404 (mockWorld [])).1
        = .rejected { message := "服务器错误 (404)" } := rfl
    rw [h2] at h
    simp only [Settled.rejected.injEq, JsError.mk.injEq] at h
    revert h
    decide

/-- C10 (as amended): when the response body has a `message` field holding a
string `m`, the normalized message is `m` if `m` is non-empty, and the
status-based message "服务器错误 (status)" if `m` is the empty string. -/
theorem server_message_or_status (w : World σ) (e : AxiosError) (r : AxiosResponse)
    (props : JsProps) (m : String)
    (hresp : e.response = some r) (hdata : r.data = .obj props)
    (hmsg : props.get "message" = .str m) :
    (api.responseRejected e w).1 = .rejected
      { message := if m = "" then "服务器错误 (" ++ toString r.status ++ ")" else m } := by
  by_cases hm : m = ""
  · simp [api.responseRejected, hresp, hdata, JsVal.optMessage, hmsg, JsVal.or,
      JsVal.truthy, hm, newError, JsVal.toStr]
  · simp [api.responseRejected, hresp, hdata, JsVal.optMessage, hmsg, JsVal.or,
      JsVal.truthy, hm, newError, JsVal.toStr]

/-- Witness for C10 (as amended): status 503 with body message "busy" stored
after another field. -/
theorem server_message_or_status_witness :
    error503.response = some
        { status := 503
          data := .obj (.cons "code" (.num 7) (.cons "message" (.str "busy") .nil)) } ∧
      (api.responseRejected error503 (mockWorld [])).1 = .rejected { message := "busy" } :=
  ⟨rfl, server_message_or_status (mockWorld []) error503
    { status := 503, data := .obj (.cons "code" (.num 7) (.cons "message" (.str "busy") .nil)) }
    (.cons "code" (.num 7) (.cons "message" (.str "busy") .nil)) "busy" rfl rfl rfl⟩

/-- C10 fails as stated: for status 500 and a body whose `message` field is the
empty string, the normalized message is "服务器错误 (500)" and not the empty
string. -/
theorem empty_message_not_kept :
    error500Empty.response
        = some { status := 500, data := .obj (.cons "message" (.str "") .nil) } ∧
      (api.responseRejected error500Empty (mockWorld [])).1
        = .rejected { message := "服务器错误 (500)" } ∧
      (api.responseRejected error500Empty (mockWorld [])).1 ≠ .rejected { message := "" } := by
  refine ⟨rfl, rfl, ?_⟩
  intro h
  have h2 : (api.responseRejected error500Empty (mockWorld [])).1
      = .rejected { message := "服务器错误 (500)" } := rfl
  rw [h2] at h
  simp only [Settled.rejected.injEq, JsError.mk.injEq] at h
  revert h
  decide

/-! ## Failures without a response -/

/-- C3: when the transport error carries a request and no response, the response
error handler rejects with the fixed message "网络连接失败，请检查网络设置", whatever
else the error holds, and no message synthesized by the server-error branch
from a status code equals it. -/
theorem network_failure_message (w : World σ) (e : AxiosError) (q : ClientRequest)
    (hresp : e.response = none) (hreq : e.request = some q) :
    (api.responseRejected e w).1 = .rejected { message := "网络连接失败，请检查网络设置" } ∧
      ∀ (e2 : AxiosError) (r : AxiosResponse) (w2 : World σ),
        e2.response = some r → r.data.optMessage = .undefined →
          (api.responseRejected e2 w2).1
              = .rejected { message := "服务器错误 (" ++ toString r.status ++ ")" } ∧
            (api.responseRejected e2 w2).1 ≠ (api.responseRejected e w).1 := by
  have key : (api.responseRejected e w).1
      = .rejected { message := "网络连接失败，请检查网络设置" } := by
    simp [api.responseRejected, hresp, hreq, newError, JsVal.toStr]
  refine ⟨key, ?_⟩
  intro e2 r w2 h2 hm
  have hs : (api.responseRejected e2 w2).1
      = .rejected { message := "服务器错误 (" ++ toString r.status ++ ")" } := by
    simp [api.responseRejected, h2, hm, JsVal.or, JsVal.truthy, newError, JsVal.toStr]
  refine ⟨hs, ?_⟩
  rw [hs, key]
  intro h
  simp only [Settled.rejected.injEq, JsError.mk.injEq] at h
  have hd := congrArg String.data h
  simp only [String.data_append] at hd
  revert hd
  generalize (toString r.status).data = digits
  intro hd
  have hh := congrArg List.head? hd
  simp only [List.cons_append, List.head?_cons, Option.some.injEq] at hh
  revert hh
  decide

/-- Witness for C3: a timeout (request made, no response). -/
theorem network_failure_message_witness :
    errorTimeout.response = none ∧
      errorTimeout.request = some { url := "/api/movie-rating/status" } ∧
      (api.responseRejected errorTimeout (mockWorld [])).1
        = .rejected { message := "网络连接失败，请检查网络设置" } ∧
      (api.responseRejected error502 (mockWorld [])).1
        ≠ (api.responseRejected errorTimeout (mockWorld [])).1 :=
  have h := network_failure_message (mockWorld []) errorTimeout
    { url := "/api/movie-rating/status" } rfl rfl
  ⟨rfl, rfl, h.1, (h.2 error502 { status := 502, data := .null } (mockWorld []) rfl rfl).2⟩

/-- C4: when the transport error carries neither a response nor a request, the
response error handler rejects with the underlying error's own message when
that message is a non-empty string, and with the fixed message "未知错误" when
the underlying error has no message (`undefined`, `null` or the empty
string). -/
theorem local_failure_message (w : World σ) (e : AxiosError)
    (hresp : e.response = none) (hreq : e.request = none) :
    (∀ m : String, e.message = .str m → m ≠ "" →
        (api.responseRejected e w).1 = .rejected { message := m }) ∧
      (e.message = .undefined ∨ e.message = .null ∨ e.message = .str "" →
        (api.responseRejected e w).1 = .rejected { message := "未知错误" }) := by
  constructor
  · intro m hm hne
    simp [api.responseRejected, hresp, hreq, hm, JsVal.or, JsVal.truthy, hne, newError,
      JsVal.toStr]
  · intro h
    rcases h with h | h | h <;>
      simp [api.responseRejected, hresp, hreq, h, JsVal.or, JsVal.truthy, newError,
        JsVal.toStr]

/-- Witness for C4: a setup failure with message "Invalid URL", and one without
a message. -/
theorem local_failure_message_witness :
    (errorSetup.response = none ∧ errorSetup.request = none ∧
        (api.responseRejected errorSetup (mockWorld [])).1
          = .rejected { message := "Invalid URL" }) ∧
      (errorSetupSilent.response = none ∧ errorSetupSilent.request = none ∧
        (api.responseRejected errorSetupSilent (mockWorld [])).1
          = .rejected { message := "未知错误" }) :=
  ⟨⟨rfl, rfl, (local_failure_message (mockWorld []) errorSetup rfl rfl).1 "Invalid URL" rfl
      (by decide)⟩,
    ⟨rfl, rfl, (local_failure_message (mockWorld []) errorSetupSilent rfl rfl).2
      (Or.inl rfl)⟩⟩

/-! ## Successful responses -/

/-- C5: for each of the four operations, when the transport exchange succeeds
with a response of any status and any body `d`, the response success handler
maps the response to `d` and the operation resolves with exactly `d`. -/
theorem success_passthrough (op : Operation) (adapter : Adapter σ) (w : World σ)
    (r : AxiosResponse) (h : (adapter op.config w.transport).1 = .ok r) :
    (api.responseFulfilled r w).1 = .fulfilled r.data ∧
      (op.run adapter w).1 = .fulfilled r.data :=
  ⟨rfl, run_ok op adapter w r h⟩

/-- Witness for C5: a `/status` answer with body `uptime: 42` is returned as is
by `getSystemStatus`. -/
theorem success_passthrough_witness :
    (scripted Operation.getSystemStatus.config (mockWorld [.ok statusOk]).transport).1
        = .ok statusOk ∧
      (movieRatingApi.getSystemStatus scripted (mockWorld [.ok statusOk])).1
        = .fulfilled (.obj (.cons "uptime" (.num 42) .nil)) :=
  ⟨rfl, (success_passthrough .getSystemStatus scripted (mockWorld [.ok statusOk]) statusOk
    rfl).2⟩

/-! ## The requests issued -/

/-- C6: for every job id, `getJobProgress` hands exactly one config to the
transport; it is a GET whose path is "/progress/" followed by the job id,
character for character (nothing dropped, changed or encoded), also for ids
containing '/', '?', '#' or spaces. -/
theorem getJobProgress_path (adapter : Adapter σ) (w : World σ) (jobId : String) :
    (∃ cfg : AxiosRequestConfig,
        (movieRatingApi.getJobProgress adapter jobId w).2.sent = w.sent ++ [cfg] ∧
          cfg.method = "get" ∧ toUpperCase cfg.method = "GET" ∧
          cfg.url = "/progress/" ++ jobId ∧
          cfg.url.data = "/progress/".data ++ jobId.data ∧
          cfg.url.data.drop 10 = jobId.data ∧
          cfg.url.length = 10 + jobId.length) ∧
      ((movieRatingApi.getJobProgress scripted "abc123" (mockWorld [])).2.sent.map
          fun cfg => (cfg.method, cfg.url)) = [("get", "/progress/abc123")] ∧
      ((movieRatingApi.getJobProgress scripted "a/b?c#d e" (mockWorld [])).2.sent.map
          fun cfg => (cfg.method, cfg.url)) = [("get", "/progress/a/b?c#d e")] := by
  have hup : toUpperCase "get" = "GET" := by decide
  refine ⟨⟨api.defaults "get" ("/progress/" ++ jobId) .undefined, ?_, rfl, hup, rfl,
    ?_, ?_, ?_⟩, by decide, by decide⟩
  · have h := (run_eq_sent (.getJobProgress jobId) adapter w).1
    rw [(request_sent adapter _ w).1] at h
    exact h
  · simp [api.defaults, String.data_append]
  · simp [api.defaults, String.data_append]
  · simp only [api.defaults, String.length, String.data_append, List.length_append]
    rfl

/-- C7: the three operations without arguments hand exactly one config to the
transport, without a body: `startProcessing` a POST to "/process",
`getAllProgress` a GET to "/progress", `getSystemStatus` a GET to "/status";
and for every job id the method-and-path pairs of the four operations are
pairwise different. -/
theorem argless_requests (adapter : Adapter σ) (w : World σ) (jobId : String) :
    (movieRatingApi.startProcessing adapter w).2.sent = w.sent ++
        [{ baseURL := "/api/movie-rating", timeout := 30000,
           headers := [("Content-Type", "application/json")],
           method := "post", url := "/process", data := .undefined }] ∧
      (movieRatingApi.getAllProgress adapter w).2.sent = w.sent ++
        [{ baseURL := "/api/movie-rating", timeout := 30000,
           headers := [("Content-Type", "application/json")],
           method := "get", url := "/progress", data := .undefined }] ∧
      (movieRatingApi.getSystemStatus adapter w).2.sent = w.sent ++
        [{ baseURL := "/api/movie-rating", timeout := 30000,
           headers := [("Content-Type", "application/json")],
           method := "get", url := "/status", data := .undefined }] ∧
      toUpperCase "post" = "POST" ∧ toUpperCase "get" = "GET" ∧
      List.Pairwise (fun a b => a ≠ b)
        ([Operation.startProcessing, Operation.getJobProgress jobId,
          Operation.getAllProgress, Operation.getSystemStatus].map
            fun op => (op.config.method, op.config.url)) := by
  refine ⟨?_, ?_, ?_, by decide, by decide, ?_⟩
  · have h := (run_eq_sent .startProcessing adapter w).1
    rw [(request_sent adapter _ w).1] at h
    exact h
  · have h := (run_eq_sent .getAllProgress adapter w).1
    rw [(request_sent adapter _ w).1] at h
    exact h
  · have h := (run_eq_sent .getSystemStatus adapter w).1
    rw [(request_sent adapter _ w).1] at h
    exact h
  · have h1 : "/progress/" ++ jobId ≠ "/progress" := by
      intro h
      have hl := congrArg String.length h
      simp only [String.length_append] at hl
      have h10 : "/progress/".length = 10 := by decide
      have h9 : "/progress".length = 9 := by decide
      omega
    have h2 : "/progress/" ++ jobId ≠ "/status" := by
      intro h
      have hd := congrArg String.data h
      simp only [String.data_append] at hd
      have hh := congrArg (fun l => l.get? 1) hd
      simp only [List.cons_append, List.get?_cons_succ, List.get?_cons_zero,
        Option.some.injEq] at hh
      revert hh
      decide
    have h3 : "/progress" ≠ "/status" := by decide
    simp [Operation.config, api.defaults, h1, h2, h3]

/-! ## One exchange per call -/

/-- C8: every operation, against every transport, hands exactly one config to
the transport and advances the transport by exactly one exchange; against a
transport scripted to fail first and succeed second, the call is rejected with
the normalization of the first (failed) result and the successful result is
left unconsumed. -/
theorem no_retry (op : Operation) (adapter : Adapter σ) (w : World σ) :
    (op.run adapter w).2.sent = w.sent ++ [op.config] ∧
      (op.run adapter w).2.transport = (adapter op.config w.transport).2 ∧
      ∀ (e : AxiosError) (r : AxiosResponse) (rest : Script) (w0 : World Script),
        (op.run scripted (mockWorld (.error e :: .ok r :: rest))).1
            = (api.responseRejected e w0).1 ∧
          (∃ err : JsError,
            (op.run scripted (mockWorld (.error e :: .ok r :: rest))).1 = .rejected err) ∧
          (op.run scripted (mockWorld (.error e :: .ok r :: rest))).2.transport
            = .ok r :: rest ∧
          (op.run scripted (mockWorld (.error e :: .ok r :: rest))).2.sent = [op.config] := by
  have hs := run_eq_sent op adapter w
  have hr := request_sent adapter op.config w
  refine ⟨hs.1.trans hr.1, hs.2.trans hr.2, ?_⟩
  intro e r rest w0
  have hfail : (scripted op.config (mockWorld (.error e :: .ok r :: rest)).transport).1
      = .error e := rfl
  have hout := run_error op scripted (mockWorld (.error e :: .ok r :: rest)) w0 e hfail
  have hs2 := run_eq_sent op scripted (mockWorld (.error e :: .ok r :: rest))
  have hr2 := request_sent scripted op.config (mockWorld (.error e :: .ok r :: rest))
  refine ⟨hout, ⟨_, hout.trans (responseRejected_rejected e w0)⟩, hs2.2.trans hr2.2,
    hs2.1.trans hr2.1⟩

/-- C9: for every operation and every transport failure, the outcome of the
operation is a rejection (never a fulfilled value), and the error received is
the one produced by the response error handler for that failure, passed on by
the catch block unchanged. -/
theorem failure_propagates (op : Operation) (adapter : Adapter σ) (w w0 : World σ)
    (e : AxiosError) (h : (adapter op.config w.transport).1 = .error e) :
    (op.run adapter w).1 = (api.responseRejected e w0).1 ∧
      (op.run adapter w).1 = (api.request adapter op.config w).1 ∧
      (∃ err : JsError, (op.run adapter w).1 = .rejected err) ∧
      ∀ v : JsVal, (op.run adapter w).1 ≠ .fulfilled v := by
  have hout := run_error op adapter w w0 e h
  have hrej := hout.trans (responseRejected_rejected e w0)
  refine ⟨hout, run_eq_fst op adapter w, ⟨_, hrej⟩, ?_⟩
  intro v hv
  rw [hrej] at hv
  cases hv

/-- Witness for C9: `getJobProgress` against a transport that times out. -/
theorem failure_propagates_witness :
    (scripted (Operation.getJobProgress "abc123").config
        (mockWorld [.error errorTimeout]).transport).1 = .error errorTimeout ∧
      (movieRatingApi.getJobProgress scripted "abc123" (mockWorld [.error errorTimeout])).1
        = .rejected { message := "网络连接失败，请检查网络设置" } :=
  ⟨rfl, (failure_propagates (.getJobProgress "abc123") scripted
    (mockWorld [.error errorTimeout]) (mockWorld []) errorTimeout rfl).1⟩

end Claims

end MovieRating
